import Mathlib

/-!
# Room Visualizer: prompt builder, model invoker and edit-request composer

A shallow embedding of

* `src/backend/gemini.js` (`generateRoomEdit`: instruction synthesis, reference
  image ordering, image extraction),
* `src/backend/server.js` (the `POST /api/edit-room` handler),
* `src/src/App.tsx` (`performAiUpdate`: placement clause and request payload).

JavaScript strings are embedded as `String`; a request field is a `JsVal`
(absent, `null` or a string, as the wire interface declares them).  The external
generation model is a parameter of the embedding: a function from the request it
is sent to the result of the call.
-/

set_option maxRecDepth 1000000

namespace RoomVisualizer

/-! ## JavaScript values -/

/-- A payload field as JavaScript sees it: absent (`undefined`), `null`, or a string. -/
inductive JsVal where
  | undefined
  | null
  | str (s : String)
  deriving DecidableEq, Repr

namespace JsVal

/-- JavaScript truthiness: only a non-empty string is truthy. -/
def truthy : JsVal → Bool
  | str s => decide (s ≠ "")
  | _ => false

/-- The string a template literal substitutes for the value (`ToString`). -/
def toStr : JsVal → String
  | undefined => "undefined"
  | null => "null"
  | str s => s

/-- The expression `v || null`. -/
def orNull (v : JsVal) : JsVal := if v.truthy then v else null

end JsVal

/-- Text containment: `p` occurs in `t` as a contiguous run of characters. -/
def occursIn (p t : String) : Prop := p.data <:+: t.data

/-! ## `gemini.js`: instruction text -/

/-- Text appended by the first branch of TASK 1 (gemini.js line 17). -/
def floorReplaceClause : String :=
  "1. FLOOR: Replace the entire floor area from floor.jpg with the texture in tile.jpg. Ensure perspective and lighting match. "

/-- Text appended by the else branch of TASK 1 (gemini.js line 19). -/
def floorKeepClause : String :=
  "1. FLOOR: Do NOT change the floor. Keep the original floor from floor.jpg exactly as it is. "

/-- Template text before the substituted colour (gemini.js line 24). -/
def wallRepaintHead : String :=
  "2. WALLS: Repaint EVERY visible wall surface in floor.jpg with the hex color "

/-- Template text after the substituted colour (gemini.js lines 24-26). -/
def wallRepaintTail : String :=
  ". \n    - Identify all planes: back walls, side walls, and small sections around the door/window. \n    - It is critical that NO original white/cream wall remains visible. "

/-- Text appended by the else branch of TASK 2 (gemini.js line 28). -/
def wallKeepClause : String :=
  "2. WALLS: Do NOT change the wall color. Keep the original walls from floor.jpg exactly as they are. "

/-- Template text before the substituted placement (gemini.js line 32). -/
def furnitureHead : String :=
  "3. FURNITURE: Place the sofa from sofa.jpg "

/-- Template text after the substituted placement (gemini.js lines 32-36). -/
def furnitureTail : String :=
  ". \n    - WALL SNAPPING: If a wall is specified, the furniture must be flush against it with no visible gap.\n    - PERSPECTIVE: The sofa must be skewed and scaled to match the vanishing points of floor.jpg. \n    - REALISM: Ensure it sits naturally on the floor with realistic ambient occlusion and contact shadows where it touches the floor and wall. \n    - DO NOT alter any other part of the room while adding this sofa. "

/-- Template text of `promptText` before `specificTask` (gemini.js lines 38-43). -/
def promptHead : String :=
  "\nYou are a master interior designer. Your ONLY structural reference is \"floor.jpg\".\n\"tile.jpg\" is for floor texture. \"sofa.jpg\" is the furniture.\n\nTASK:\nCombine these elements into one photorealistic image following these rules:\n"

/-- Template text of `promptText` after `specificTask` (gemini.js lines 44-49). -/
def promptTail : String :=
  "\n- Maintain all original architectural details (door, trim, switches, windows).\n- If no change is requested for walls or floors, they MUST be identical to floor.jpg.\n- Lighting on the sofa must match the light source direction in floor.jpg.\n- Provide ONLY the final image.\n"

/-- The accumulator `specificTask` after the three conditional appends
(gemini.js lines 13-37). -/
def specificTask (tileImgBase64 colorValue sofaImgBase64 sofaPlacement : JsVal) : String :=
  let s0 := ""
  let s1 :=
    if tileImgBase64.truthy then s0 ++ floorReplaceClause else s0 ++ floorKeepClause
  let s2 :=
    if colorValue.truthy then s1 ++ (wallRepaintHead ++ colorValue.toStr ++ wallRepaintTail)
    else s1 ++ wallKeepClause
  let s3 :=
    if sofaImgBase64.truthy then s2 ++ (furnitureHead ++ sofaPlacement.toStr ++ furnitureTail)
    else s2
  s3

/-- The instruction `promptText` (gemini.js lines 38-49). -/
def promptText (tileImgBase64 colorValue sofaImgBase64 sofaPlacement : JsVal) : String :=
  promptHead ++ specificTask tileImgBase64 colorValue sofaImgBase64 sofaPlacement ++ promptTail

/-! ## `gemini.js`: reference images -/

/-- The class `\w` of a JavaScript regular expression without flags. -/
def isWordChar (c : Char) : Bool := c.isAlphanum || c == '_'

/-- Drop the literal `lit` from the front of `s`; `none` when `s` does not start with it. -/
def dropLit : List Char → List Char → Option (List Char)
  | [], s => some s
  | _ :: _, [] => none
  | p :: ps, c :: cs => if p = c then dropLit ps cs else none

/-- The call `str.replace(/^data:image\/\w+;base64,/, "")`.  The pattern is anchored at
the start and has no `g` flag, so at most the leading match is removed.  A `;` is not
a word character, so the only candidate for `\w+` is the maximal run of word
characters after `data:image/`; the match succeeds when that run is non-empty and is
followed by `;base64,`. -/
def stripDataUrl (s : String) : String :=
  match dropLit "data:image/".data s.data with
  | none => s
  | some r =>
    let rest := r.dropWhile isWordChar
    if rest.length < r.length then
      match dropLit ";base64,".data rest with
      | none => s
      | some t => String.mk t
    else s

/-- The helper `cleanBase64` (gemini.js line 52): `str ? str.replace(...) : null`. -/
def cleanBase64 (str : JsVal) : JsVal :=
  match str with
  | JsVal.str s => if (JsVal.str s).truthy then JsVal.str (stripDataUrl s) else JsVal.null
  | _ => JsVal.null

/-- One element of the `parts` array sent to the model. -/
inductive Part where
  | text (text : String)
  | inlineData (data : JsVal) (mimeType : String)
  deriving DecidableEq, Repr

/-- The array `inputParts` after all pushes (gemini.js lines 53-73).  The parameter
`targetObjects` of `generateRoomEdit` is in scope and never read. -/
def inputParts (floorImgBase64 tileImgBase64 sofaImgBase64 bedImgBase64 colorValue
    targetObjects sofaPlacement : JsVal) : List Part :=
  let _unused := targetObjects
  let parts0 := [Part.text (promptText tileImgBase64 colorValue sofaImgBase64 sofaPlacement)]
  let parts1 := parts0 ++ [Part.inlineData (cleanBase64 floorImgBase64) "image/jpeg"]
  let parts2 :=
    if tileImgBase64.truthy then
      parts1 ++ [Part.inlineData (cleanBase64 tileImgBase64) "image/jpeg"]
    else parts1
  let cleanedSofa := cleanBase64 sofaImgBase64
  let parts3 :=
    if cleanedSofa.truthy then parts2 ++ [Part.inlineData cleanedSofa "image/jpeg"]
    else parts2
  let cleanedBed := cleanBase64 bedImgBase64
  let parts4 :=
    if cleanedBed.truthy then parts3 ++ [Part.inlineData cleanedBed "image/png"]
    else parts3
  parts4

/-! ## `gemini.js`: model call and image extraction -/

/-- The argument of `ai.models.generateContent` (gemini.js lines 76-80). -/
structure GenerateContentRequest where
  model : String
  parts : List Part
  responseModalities : List String
  deriving DecidableEq, Repr

/-- The `inlineData` object of a response part. -/
structure InlineData where
  data : JsVal
  deriving DecidableEq, Repr

/-- A part of the model response; `inlineData` is `none` when the field is absent. -/
structure RespPart where
  inlineData : Option InlineData
  deriving DecidableEq, Repr

/-- The `content` of a candidate; `parts` is `none` when the field is absent. -/
structure Content where
  parts : Option (List RespPart)
  deriving DecidableEq, Repr

/-- A candidate of the model response; `content` is `none` when the field is absent. -/
structure Candidate where
  content : Option Content
  deriving DecidableEq, Repr

/-- The model response; `candidates` is `none` when the field is absent. -/
structure GenResponse where
  candidates : Option (List Candidate)
  deriving DecidableEq, Repr

/-- How the awaited model call ends: the promise rejects with an error carrying a
message, or resolves with a response. -/
inductive ModelResult where
  | rejects (message : String)
  | resolves (response : GenResponse)
  deriving DecidableEq, Repr

/-- An exception raised inside `generateRoomEdit`: an `Error` with a message, or the
`TypeError` of reading property `prop` of `undefined`. -/
inductive JsError where
  | error (message : String)
  | typeError (prop : String)
  deriving DecidableEq, Repr

/-- The `message` of the exception (for a `TypeError`, the text Node.js gives it). -/
def JsError.message : JsError → String
  | JsError.error m => m
  | JsError.typeError prop =>
    "Cannot read properties of undefined (reading \x27" ++ prop ++ "\x27)"

/-- Lines 82-84 of gemini.js:
`result.candidates[0].content.parts.find(p => p.inlineData)`, then return its
`inlineData.data` or throw `Error("Did not return an image.")`. -/
def extractImage (result : GenResponse) : Except JsError JsVal :=
  match result.candidates with
  | none => Except.error (JsError.typeError "0")
  | some candidates =>
    match candidates.head? with
    | none => Except.error (JsError.typeError "content")
    | some candidate =>
      match candidate.content with
      | none => Except.error (JsError.typeError "parts")
      | some content =>
        match content.parts with
        | none => Except.error (JsError.typeError "find")
        | some parts =>
          match parts.find? (fun p => p.inlineData.isSome) with
          | some { inlineData := some d } => Except.ok d.data
          | _ => Except.error (JsError.error "Did not return an image.")

/-- What one run of `generateRoomEdit` does: the model calls it made and how it ended. -/
structure EditRun where
  calls : List GenerateContentRequest
  result : Except JsError JsVal

/-- The function `generateRoomEdit` (gemini.js lines 10-89), with the model client `ai`
as a parameter. -/
def generateRoomEdit (ai : GenerateContentRequest → ModelResult)
    (floorImgBase64 tileImgBase64 sofaImgBase64 bedImgBase64 colorValue
      targetObjects sofaPlacement : JsVal) : EditRun :=
  let request : GenerateContentRequest :=
    { model := "gemini-2.5-flash-image"
      parts := inputParts floorImgBase64 tileImgBase64 sofaImgBase64 bedImgBase64 colorValue
        targetObjects sofaPlacement
      responseModalities := ["IMAGE"] }
  match ai request with
  | ModelResult.rejects message =>
    { calls := [request], result := Except.error (JsError.error message) }
  | ModelResult.resolves response =>
    { calls := [request], result := extractImage response }

/-! ## `server.js`: the `POST /api/edit-room` handler -/

/-- The JSON body of a request to `POST /api/edit-room`. -/
structure EditRoomBody where
  floorImgBase64 : JsVal
  tileImgBase64 : JsVal
  sofaImgBase64 : JsVal
  bedImgBase64 : JsVal
  colorValue : JsVal
  targetObjects : JsVal
  sofaPlacement : JsVal
  deriving DecidableEq, Repr

/-- The JSON body of a response. -/
inductive ResponseBody where
  | error (message : String)
  | success (image : JsVal)
  deriving DecidableEq, Repr

/-- What handling one request does: the model calls made, the HTTP status and the body. -/
structure Outcome where
  modelCalls : List GenerateContentRequest
  status : Nat
  body : ResponseBody
  deriving DecidableEq, Repr

/-- The handler of `POST /api/edit-room` (server.js lines 23-56). -/
def editRoom (ai : GenerateContentRequest → ModelResult) (req : EditRoomBody) : Outcome :=
  if !req.floorImgBase64.truthy then
    { modelCalls := [], status := 400, body := ResponseBody.error "Missing floorImgBase64." }
  else
    let run := generateRoomEdit ai
      req.floorImgBase64
      req.tileImgBase64.orNull
      req.sofaImgBase64.orNull
      req.bedImgBase64.orNull
      req.colorValue.orNull
      req.targetObjects
      req.sofaPlacement
    match run.result with
    | Except.ok editedImage =>
      { modelCalls := run.calls, status := 200, body := ResponseBody.success editedImage }
    | Except.error err =>
      { modelCalls := run.calls, status := 500, body := ResponseBody.error err.message }

/-! ## `App.tsx`: placement clause and request payload -/

/-- A recorded click position; both components come from `Math.round` (App.tsx line 131),
so they are integers. -/
structure Coords where
  x : Int
  y : Int
  deriving DecidableEq, Repr

/-- The decimal text a template literal substitutes for an integer-valued number. -/
def numToString (n : Int) : String :=
  if n < 0 then "-" ++ String.mk (Nat.toDigits 10 n.natAbs)
  else String.mk (Nat.toDigits 10 n.natAbs)

/-- The variable `sofaPlacementDescription` of `performAiUpdate` (App.tsx lines 148-158);
`coords` is `none` when the argument is `null` or `undefined`. -/
def sofaPlacementDescription (coords : Option Coords) : String :=
  match coords with
  | none => "centered in the room"
  | some c =>
    let stageWidth : Int := 1200
    let side := if c.x < stageWidth / 2 then "LEFT" else "RIGHT"
    "at coordinates X: " ++ numToString c.x ++ ", Y: " ++ numToString c.y
      ++ ". \n        It MUST be placed flush against the " ++ side
      ++ " wall, aligned parallel to that wall's perspective. \n        The back of the sofa should touch the "
      ++ side ++ " wall, facing the center of the room."

/-- Turn an optional string into the JSON value sent for it (`null` when there is none). -/
def ofOption : Option String → JsVal
  | none => JsVal.null
  | some s => JsVal.str s

/-- The body `performAiUpdate` posts (App.tsx lines 162-169), given the encoded room
photo, the encoded tile and sofa (when one is selected) and the wall colour. -/
def performAiUpdateBody (roomBase64 : String) (tileBase64 sofaBase64 wColor : Option String)
    (coords : Option Coords) : EditRoomBody :=
  { floorImgBase64 := JsVal.str roomBase64
    tileImgBase64 := ofOption tileBase64
    sofaImgBase64 := ofOption sofaBase64
    bedImgBase64 := JsVal.undefined
    colorValue := ofOption wColor
    targetObjects := JsVal.str "both"
    sofaPlacement := JsVal.str (sofaPlacementDescription coords) }

/-! ## Text search used to state and check containment -/

/-- Boolean test that `p` occurs in `t` as a contiguous run. -/
def hasInfix (p : List Char) : List Char → Bool
  | [] => p.isEmpty
  | c :: cs => p.isPrefixOf (c :: cs) || hasInfix p cs

/-- No proper non-empty front part of `P` ends the fixed text `X`. -/
def noBorderLeft (P X : List Char) : Bool :=
  (List.range P.length).all fun k => k == 0 || !(P.take k).isSuffixOf X

/-- No proper non-empty back part of `P` starts the fixed text `X`. -/
def noBorderRight (P X : List Char) : Bool :=
  (List.range P.length).all fun k => k == 0 || !(P.drop k).isPrefixOf X

/-- The fixed text `X` neither contains `P` nor lets `P` run across one of its ends. -/
def segOk (P X : List Char) : Bool :=
  !hasInfix P X && noBorderLeft P X && noBorderRight P X && decide (P.length ≤ X.length + 1)

/-- Fixed text `X0` followed by alternating free text and fixed text. -/
def assemble (X0 : List Char) : List (List Char × List Char) → List Char
  | [] => X0
  | vX :: rest => X0 ++ (vX.1 ++ assemble vX.2 rest)

/-- The fixed texts of the instruction, in order, for each combination of the three
branches; the free texts (colour, placement) sit between consecutive entries. -/
def fixedSegments (tileB colorB sofaB : Bool) : List String :=
  let f := if tileB then floorReplaceClause else floorKeepClause
  match colorB, sofaB with
  | true, true =>
    [promptHead ++ f ++ wallRepaintHead, wallRepaintTail ++ furnitureHead,
      furnitureTail ++ promptTail]
  | true, false => [promptHead ++ f ++ wallRepaintHead, wallRepaintTail ++ promptTail]
  | false, true => [promptHead ++ f ++ wallKeepClause ++ furnitureHead, furnitureTail ++ promptTail]
  | false, false => [promptHead ++ f ++ wallKeepClause ++ promptTail]

/-- Every fixed text of the instruction passes `segOk` for `P`. -/
def promptCheck (P : String) (tileB colorB sofaB : Bool) : Bool :=
  (fixedSegments tileB colorB sofaB).all fun X => segOk P.data X.data

/-! ## Texts searched for in the instruction -/

/-- The first sentence of `floorReplaceClause` (gemini.js line 17). -/
def floorReplaceText : String :=
  "1. FLOOR: Replace the entire floor area from floor.jpg with the texture in tile.jpg."

/-- The first sentence of `floorReplaceClause` without its full stop. -/
def floorReplaceStem : String :=
  "1. FLOOR: Replace the entire floor area from floor.jpg with the texture in tile.jpg"

/-- The order given by `floorKeepClause` (gemini.js line 19), without its label. -/
def floorKeepText : String := "Do NOT change the floor"


/-! ## Reading a decimal numeral -/

/-- The number a run of decimal digits denotes, most significant digit first. -/
def decimalValue (cs : List Char) : Nat :=
  cs.foldl (fun acc c => 10 * acc + (c.toNat - '0'.toNat)) 0

/-- The integer a decimal numeral denotes: digits, with a minus sign in front for a
negative number. -/
def numeralValue (cs : List Char) : Int :=
  match cs with
  | [] => 0
  | c :: rest => if c = '-' then - (decimalValue rest : Int) else (decimalValue (c :: rest) : Int)

/-! ## Lemmas on text search -/

theorem hasInfix_iff (p : List Char) : ∀ t : List Char, hasInfix p t = true ↔ p <:+: t
  | [] => by
    cases p <;> simp [hasInfix]
  | c :: cs => by
    rw [hasInfix, Bool.or_eq_true, hasInfix_iff p cs, List.infix_cons_iff,
      List.isPrefixOf_iff_prefix]

theorem infix_append_cases {α : Type} {P A B : List α} (h : P <:+: A ++ B) :
    P <:+: A ∨ P <:+: B ∨
      ∃ k, 0 < k ∧ k < P.length ∧ P.take k <:+ A ∧ P.drop k <+: B := by
  obtain ⟨s, t, hst⟩ := h
  rcases List.append_eq_append_iff.mp hst with ⟨a, hA, -⟩ | ⟨c, hsP, hB⟩
  · exact Or.inl ⟨s, a, hA.symm⟩
  · rcases List.append_eq_append_iff.mp hsP with ⟨a, hA, hP⟩ | ⟨d, -, hc⟩
    · -- `P = a ++ c`, `A = s ++ a`, `B = c ++ t`
      rcases a with _ | ⟨x, a⟩
      · right; left
        refine ⟨[], t, ?_⟩
        simp at hP
        simp [hP, hB]
      · rcases c with _ | ⟨y, c⟩
        · left
          refine ⟨s, [], ?_⟩
          simp at hP
          simp [hP, hA]
        · right; right
          refine ⟨(x :: a).length, by simp, by simp [hP], ?_, ?_⟩
          · rw [hP, List.take_left]; exact ⟨s, hA.symm⟩
          · rw [hP, List.drop_left]; exact ⟨t, hB.symm⟩
    · right; left
      exact ⟨d, t, by rw [hB, hc]⟩


theorem assemble_eq_append (X0 : List Char) (rest : List (List Char × List Char)) :
    ∃ R, assemble X0 rest = X0 ++ R := by
  cases rest with
  | nil => exact ⟨[], by simp [assemble]⟩
  | cons vX rest => exact ⟨_, rfl⟩

theorem not_infix_assemble (P : List Char) :
    ∀ (rest : List (List Char × List Char)) (X0 : List Char), segOk P X0 = true →
      (∀ vX ∈ rest, ¬ P <:+: vX.1 ∧ segOk P vX.2 = true) → ¬ P <:+: assemble X0 rest
  | [], X0, h0, _ => by
    simp only [segOk, Bool.and_eq_true, Bool.not_eq_true', decide_eq_true_eq] at h0
    intro h
    have := (hasInfix_iff P X0).mpr h
    simp [assemble, h0.1.1.1] at this
  | vX :: rest, X0, h0, hrest => by
    have h0' := h0
    simp only [segOk, Bool.and_eq_true, Bool.not_eq_true', decide_eq_true_eq] at h0'
    obtain ⟨⟨⟨hin, hL⟩, -⟩, -⟩ := h0'
    have hv := hrest vX (List.mem_cons_self _ _)
    have hX := hv.2
    simp only [segOk, Bool.and_eq_true, Bool.not_eq_true', decide_eq_true_eq] at hX
    obtain ⟨⟨⟨-, -⟩, hR⟩, hlen⟩ := hX
    have ih := not_infix_assemble P rest vX.2 hv.2
      (fun w hw => hrest w (List.mem_cons_of_mem _ hw))
    intro h
    rw [assemble] at h
    rcases infix_append_cases h with h1 | h2 | ⟨k, hk0, hk, hsuf, -⟩
    · have := (hasInfix_iff P X0).mpr h1
      simp [hin] at this
    · rcases infix_append_cases h2 with h3 | h4 | ⟨k, hk0, hk, -, hpre⟩
      · exact hv.1 h3
      · exact ih h4
      · obtain ⟨R, hRe⟩ := assemble_eq_append vX.2 rest
        rw [hRe] at hpre
        have hp : P.drop k <+: vX.2 :=
          List.prefix_of_prefix_length_le hpre (List.prefix_append _ _)
            (by simp only [List.length_drop]; omega)
        have hb := List.all_eq_true.mp hR k (List.mem_range.mpr hk)
        have hk0' : (k == 0) = false := by simp; omega
        simp only [hk0', Bool.false_or, Bool.not_eq_true', ← Bool.not_eq_true,
          List.isPrefixOf_iff_prefix] at hb
        exact hb hp
    · have hb := List.all_eq_true.mp hL k (List.mem_range.mpr hk)
      have hk0' : (k == 0) = false := by simp; omega
      simp only [hk0', Bool.false_or, Bool.not_eq_true', ← Bool.not_eq_true,
        List.isSuffixOf_iff_suffix] at hb
      exact hb hsuf


theorem data_empty : ("" : String).data = [] := rfl

theorem not_occursIn_promptText (P : String) (tile color sofa pl : JsVal)
    (hchk : promptCheck P tile.truthy color.truthy sofa.truthy = true)
    (hc : color.truthy = true → ¬ occursIn P color.toStr)
    (hp : sofa.truthy = true → ¬ occursIn P pl.toStr) :
    ¬ occursIn P (promptText tile color sofa pl) := by
  unfold occursIn at *
  cases hcol : color.truthy <;> cases hsofa : sofa.truthy <;>
    simp only [hcol, hsofa, promptCheck, fixedSegments, List.all_cons, List.all_nil,
      Bool.and_true, Bool.and_eq_true] at hchk
  · have hT : (promptText tile color sofa pl).data
        = assemble (promptHead ++ (if tile.truthy = true then floorReplaceClause
            else floorKeepClause) ++ wallKeepClause ++ promptTail).data [] := by
      cases htile : tile.truthy <;>
        simp [promptText, specificTask, hcol, hsofa, htile, assemble, String.data_append,
          data_empty]
    rw [hT]
    exact not_infix_assemble _ _ _ hchk (by simp)
  · have hT : (promptText tile color sofa pl).data
        = assemble (promptHead ++ (if tile.truthy = true then floorReplaceClause
            else floorKeepClause) ++ wallKeepClause ++ furnitureHead).data
            [(pl.toStr.data, (furnitureTail ++ promptTail).data)] := by
      cases htile : tile.truthy <;>
        simp [promptText, specificTask, hcol, hsofa, htile, assemble, String.data_append,
          data_empty]
    rw [hT]
    exact not_infix_assemble _ _ _ hchk.1 (by simpa using ⟨hp hsofa, hchk.2⟩)
  · have hT : (promptText tile color sofa pl).data
        = assemble (promptHead ++ (if tile.truthy = true then floorReplaceClause
            else floorKeepClause) ++ wallRepaintHead).data
            [(color.toStr.data, (wallRepaintTail ++ promptTail).data)] := by
      cases htile : tile.truthy <;>
        simp [promptText, specificTask, hcol, hsofa, htile, assemble, String.data_append,
          data_empty]
    rw [hT]
    exact not_infix_assemble _ _ _ hchk.1 (by simpa using ⟨hc hcol, hchk.2⟩)
  · have hT : (promptText tile color sofa pl).data
        = assemble (promptHead ++ (if tile.truthy = true then floorReplaceClause
            else floorKeepClause) ++ wallRepaintHead).data
            [(color.toStr.data, (wallRepaintTail ++ furnitureHead).data),
              (pl.toStr.data, (furnitureTail ++ promptTail).data)] := by
      cases htile : tile.truthy <;>
        simp [promptText, specificTask, hcol, hsofa, htile, assemble, String.data_append,
          data_empty]
    rw [hT]
    exact not_infix_assemble _ _ _ hchk.1
      (by simpa using ⟨⟨hc hcol, hchk.2.1⟩, hp hsofa, hchk.2.2⟩)


theorem occursIn_of_check {p t : String} (h : hasInfix p.data t.data = true) : occursIn p t :=
  (hasInfix_iff _ _).mp h

theorem not_occursIn_of_check {p t : String} (h : hasInfix p.data t.data = false) :
    ¬ occursIn p t := fun hp => by
  have := (hasInfix_iff _ _).mpr hp
  simp [h] at this

theorem occursIn_trans {p q t : String} (h1 : occursIn p q) (h2 : occursIn q t) :
    occursIn p t :=
  List.IsInfix.trans h1 h2

theorem occursIn_append_mid (a x b : String) : occursIn x (a ++ x ++ b) := by
  unfold occursIn
  simp only [String.data_append]
  exact List.infix_append _ _ _

/-- The instruction as a sequence of five texts: head, floor clause, wall clause,
furniture clause (empty without a sofa), tail. -/
theorem promptText_eq (tile color sofa pl : JsVal) :
    promptText tile color sofa pl =
      promptHead ++ (if tile.truthy = true then floorReplaceClause else floorKeepClause)
        ++ (if color.truthy = true then wallRepaintHead ++ color.toStr ++ wallRepaintTail
            else wallKeepClause)
        ++ (if sofa.truthy = true then furnitureHead ++ pl.toStr ++ furnitureTail else "")
        ++ promptTail := by
  apply String.ext
  cases ht : tile.truthy <;> cases hc : color.truthy <;> cases hs : sofa.truthy <;>
    simp [promptText, specificTask, String.data_append, data_empty, ht, hc, hs]

theorem occursIn_floor_slot (p : String) (tile color sofa pl : JsVal)
    (h : occursIn p (if tile.truthy = true then floorReplaceClause else floorKeepClause)) :
    occursIn p (promptText tile color sofa pl) := by
  rw [promptText_eq]
  unfold occursIn at *
  simp only [String.data_append, List.append_assoc]
  exact h.trans (List.infix_append' _ _ _)

theorem occursIn_wall_slot (p : String) (tile color sofa pl : JsVal)
    (h : occursIn p (if color.truthy = true then wallRepaintHead ++ color.toStr ++ wallRepaintTail
            else wallKeepClause)) :
    occursIn p (promptText tile color sofa pl) := by
  rw [promptText_eq]
  unfold occursIn at *
  simp only [String.data_append, List.append_assoc] at h ⊢
  refine h.trans ?_
  rw [← List.append_assoc]
  exact List.infix_append' _ _ _

theorem occursIn_furniture_slot (p : String) (tile color sofa pl : JsVal)
    (h : occursIn p (if sofa.truthy = true then furnitureHead ++ pl.toStr ++ furnitureTail
      else "")) :
    occursIn p (promptText tile color sofa pl) := by
  rw [promptText_eq]
  unfold occursIn at *
  simp only [String.data_append]
  exact h.trans (List.infix_append _ _ _)

/-! ## C1: exactly one floor clause -/

/-- C1 (as amended).  For every input the instruction contains the floor clause selected
by the tile reference: the replacement clause naming tile.jpg when a tile is present, the
"Do NOT change the floor" clause when none is.  It does not contain the other floor
clause provided the free text embedded in it (the wall colour when one is given, the
placement text when a sofa is given) does not itself carry that clause's text. -/
theorem floor_clause_exactly_one (tile color sofa pl : JsVal) :
    (tile.truthy = true → occursIn floorReplaceText (promptText tile color sofa pl)) ∧
    (tile.truthy = false → occursIn floorKeepText (promptText tile color sofa pl)) ∧
    ((color.truthy = true → ¬ occursIn floorKeepText color.toStr) →
      (sofa.truthy = true → ¬ occursIn floorKeepText pl.toStr) →
      tile.truthy = true → ¬ occursIn floorKeepText (promptText tile color sofa pl)) ∧
    ((color.truthy = true → ¬ occursIn floorReplaceStem color.toStr) →
      (sofa.truthy = true → ¬ occursIn floorReplaceStem pl.toStr) →
      tile.truthy = false → ¬ occursIn floorReplaceText (promptText tile color sofa pl)) := by
  refine ⟨?_, ?_, ?_, ?_⟩
  · intro ht
    apply occursIn_floor_slot
    rw [if_pos ht]
    exact occursIn_of_check (by decide)
  · intro ht
    apply occursIn_floor_slot
    rw [if_neg (by simp [ht])]
    exact occursIn_of_check (by decide)
  · intro hc hp ht
    apply not_occursIn_promptText _ _ _ _ _ ?_ hc hp
    rw [ht]
    cases color.truthy <;> cases sofa.truthy <;> decide
  · intro hc hp ht h
    have hstem : occursIn floorReplaceStem floorReplaceText := occursIn_of_check (by decide)
    refine not_occursIn_promptText floorReplaceStem tile color sofa pl ?_ hc hp
      (occursIn_trans hstem h)
    rw [ht]
    cases color.truthy <;> cases sofa.truthy <;> decide

/-- Witness for `floor_clause_exactly_one`: a tile, the colour `#10B981` and a sofa
placed "centered in the room". -/
theorem floor_clause_exactly_one_witness :
    occursIn floorReplaceText
        (promptText (JsVal.str "T") (JsVal.str "#10B981") (JsVal.str "S")
          (JsVal.str "centered in the room")) ∧
      ¬ occursIn floorKeepText
        (promptText (JsVal.str "T") (JsVal.str "#10B981") (JsVal.str "S")
          (JsVal.str "centered in the room")) :=
  ⟨(floor_clause_exactly_one (JsVal.str "T") (JsVal.str "#10B981") (JsVal.str "S")
      (JsVal.str "centered in the room")).1 (by decide),
    (floor_clause_exactly_one (JsVal.str "T") (JsVal.str "#10B981") (JsVal.str "S")
      (JsVal.str "centered in the room")).2.2.1
      (fun _ => not_occursIn_of_check (by decide))
      (fun _ => not_occursIn_of_check (by decide)) (by decide)⟩

/-- C1 fails as stated.  With no tile reference and a wall colour that carries the text
of the replacement clause, the instruction contains the replacement clause; with a tile
reference and a wall colour that reads "Do NOT change the floor", the instruction
contains both floor clauses. -/
theorem floor_clause_exactly_one_counterexample :
    (JsVal.null.truthy = false ∧
      occursIn "1. FLOOR: Replace the entire floor area from floor.jpg with the texture in tile.jpg."
        (promptText JsVal.null
          (JsVal.str "1. FLOOR: Replace the entire floor area from floor.jpg with the texture in tile.jpg")
          JsVal.null JsVal.undefined)) ∧
    ((JsVal.str "T").truthy = true ∧
      occursIn "Do NOT change the floor"
        (promptText (JsVal.str "T") (JsVal.str "Do NOT change the floor")
          JsVal.null JsVal.undefined)) :=
  ⟨⟨by decide, occursIn_of_check (by decide)⟩, ⟨by decide, occursIn_of_check (by decide)⟩⟩



/-! ## C2: order of the reference images -/

/-- The request `generateRoomEdit` sends is built before the model answers: whatever the
model does, exactly one call is made and it carries `inputParts`. -/
theorem generateRoomEdit_calls (ai : GenerateContentRequest → ModelResult)
    (floor tile sofa bed color target pl : JsVal) :
    (generateRoomEdit ai floor tile sofa bed color target pl).calls =
      [{ model := "gemini-2.5-flash-image"
         parts := inputParts floor tile sofa bed color target pl
         responseModalities := ["IMAGE"] }] := by
  cases h : ai { model := "gemini-2.5-flash-image"
                 parts := inputParts floor tile sofa bed color target pl
                 responseModalities := ["IMAGE"] } <;>
    simp [generateRoomEdit, h]

/-- The parts list is the instruction, the base photo, then each optional reference that
is attached, in the order tile, sofa, secondary. -/
theorem inputParts_eq (floor tile sofa bed color target pl : JsVal) :
    inputParts floor tile sofa bed color target pl =
      Part.text (promptText tile color sofa pl)
        :: Part.inlineData (cleanBase64 floor) "image/jpeg"
        :: ((if tile.truthy = true then [Part.inlineData (cleanBase64 tile) "image/jpeg"] else [])
          ++ (if (cleanBase64 sofa).truthy = true then
                [Part.inlineData (cleanBase64 sofa) "image/jpeg"] else [])
          ++ (if (cleanBase64 bed).truthy = true then
                [Part.inlineData (cleanBase64 bed) "image/png"] else [])) := by
  cases h1 : tile.truthy <;> cases h2 : (cleanBase64 sofa).truthy <;>
    cases h3 : (cleanBase64 bed).truthy <;> simp [inputParts, h1, h2, h3]

theorem cleanBase64_str (s : String) (h : s ≠ "") :
    cleanBase64 (JsVal.str s) = JsVal.str (stripDataUrl s) := by
  simp [cleanBase64, JsVal.truthy, h]

theorem stripDataUrl_empty : stripDataUrl "" = "" := by decide

theorem cleanBase64_truthy_iff (v : JsVal) :
    (cleanBase64 v).truthy = true ↔ ∃ s, v = JsVal.str s ∧ stripDataUrl s ≠ "" := by
  cases v with
  | undefined => simp [cleanBase64, JsVal.truthy]
  | null => simp [cleanBase64, JsVal.truthy]
  | str s =>
    by_cases hs : s = ""
    · subst hs
      simp [cleanBase64, JsVal.truthy, stripDataUrl_empty]
    · rw [cleanBase64_str s hs]
      simp [JsVal.truthy]

/-- C2.  Whatever the model does, `generateRoomEdit` makes one call, and its parts are
exactly: the instruction text; the base photo; the tile when a tile reference is present;
the sofa when the sofa reference is attached; the secondary reference when it is attached;
in this order, nothing else, nothing twice.  A sofa or secondary reference is attached
exactly when it is a string that stripping the data-URL prefix leaves non-empty.  So the
images are always a sublist of [tile, sofa, secondary] after the base photo, and when the
base photo and the tile are present and the sofa and secondary references are not emptied
by stripping, the parts are exactly the instruction followed by the four stripped images
in the order base, tile, sofa, secondary. -/
theorem reference_image_order (ai : GenerateContentRequest → ModelResult)
    (floor tile sofa bed color target pl : JsVal) :
    (generateRoomEdit ai floor tile sofa bed color target pl).calls.map (fun r => r.parts) =
      [Part.text (promptText tile color sofa pl)
        :: Part.inlineData (cleanBase64 floor) "image/jpeg"
        :: ((if tile.truthy = true then [Part.inlineData (cleanBase64 tile) "image/jpeg"]
              else [])
          ++ (if (cleanBase64 sofa).truthy = true then
                [Part.inlineData (cleanBase64 sofa) "image/jpeg"] else [])
          ++ (if (cleanBase64 bed).truthy = true then
                [Part.inlineData (cleanBase64 bed) "image/png"] else []))] ∧
    (∀ v : JsVal, (cleanBase64 v).truthy = true ↔ ∃ s, v = JsVal.str s ∧ stripDataUrl s ≠ "") ∧
    (∃ images,
      (generateRoomEdit ai floor tile sofa bed color target pl).calls.map (fun r => r.parts) =
        [Part.text (promptText tile color sofa pl)
          :: Part.inlineData (cleanBase64 floor) "image/jpeg" :: images] ∧
      List.Sublist images
        [Part.inlineData (cleanBase64 tile) "image/jpeg",
          Part.inlineData (cleanBase64 sofa) "image/jpeg",
          Part.inlineData (cleanBase64 bed) "image/png"]) ∧
    (∀ f t s b : String, floor = JsVal.str f → tile = JsVal.str t → sofa = JsVal.str s →
      bed = JsVal.str b → f ≠ "" → t ≠ "" → stripDataUrl s ≠ "" → stripDataUrl b ≠ "" →
      (generateRoomEdit ai floor tile sofa bed color target pl).calls.map (fun r => r.parts) =
        [[Part.text (promptText tile color sofa pl),
          Part.inlineData (JsVal.str (stripDataUrl f)) "image/jpeg",
          Part.inlineData (JsVal.str (stripDataUrl t)) "image/jpeg",
          Part.inlineData (JsVal.str (stripDataUrl s)) "image/jpeg",
          Part.inlineData (JsVal.str (stripDataUrl b)) "image/png"]]) := by
  refine ⟨by rw [generateRoomEdit_calls, List.map_singleton, inputParts_eq],
    cleanBase64_truthy_iff, ?_, ?_⟩
  · refine ⟨_, by rw [generateRoomEdit_calls, List.map_singleton, inputParts_eq], ?_⟩
    cases tile.truthy <;> cases (cleanBase64 sofa).truthy <;> cases (cleanBase64 bed).truthy <;>
      simp
  · intro f t s b hf ht hs hb hf0 ht0 hs0 hb0
    subst hf ht hs hb
    have hs1 : s ≠ "" := fun h => hs0 (by rw [h, stripDataUrl_empty])
    have hb1 : b ≠ "" := fun h => hb0 (by rw [h, stripDataUrl_empty])
    rw [generateRoomEdit_calls, List.map_singleton, inputParts_eq, cleanBase64_str f hf0,
      cleanBase64_str t ht0, cleanBase64_str s hs1, cleanBase64_str b hb1]
    simp [JsVal.truthy, ht0, hs0, hb0]

/-- Witness for `reference_image_order`: four data URLs, a model that rejects. -/
theorem reference_image_order_witness :
    (generateRoomEdit (fun _ => ModelResult.rejects "quota")
        (JsVal.str "data:image/jpeg;base64,AAAA") (JsVal.str "data:image/jpeg;base64,BBBB")
        (JsVal.str "data:image/jpeg;base64,CCCC") (JsVal.str "data:image/png;base64,DDDD")
        JsVal.null JsVal.undefined JsVal.undefined).calls.map (fun r => r.parts) =
      [[Part.text (promptText (JsVal.str "data:image/jpeg;base64,BBBB") JsVal.null
            (JsVal.str "data:image/jpeg;base64,CCCC") JsVal.undefined),
        Part.inlineData (JsVal.str (stripDataUrl "data:image/jpeg;base64,AAAA")) "image/jpeg",
        Part.inlineData (JsVal.str (stripDataUrl "data:image/jpeg;base64,BBBB")) "image/jpeg",
        Part.inlineData (JsVal.str (stripDataUrl "data:image/jpeg;base64,CCCC")) "image/jpeg",
        Part.inlineData (JsVal.str (stripDataUrl "data:image/png;base64,DDDD")) "image/png"]] :=
  (reference_image_order (fun _ => ModelResult.rejects "quota")
    (JsVal.str "data:image/jpeg;base64,AAAA") (JsVal.str "data:image/jpeg;base64,BBBB")
    (JsVal.str "data:image/jpeg;base64,CCCC") (JsVal.str "data:image/png;base64,DDDD")
    JsVal.null JsVal.undefined JsVal.undefined).2.2.2 _ _ _ _ rfl rfl rfl rfl
    (by decide) (by decide) (by decide) (by decide)


/-! ## C3: references named by the instruction are attached -/

theorem truthy_of_cleanBase64_truthy (v : JsVal) (h : (cleanBase64 v).truthy = true) :
    v.truthy = true := by
  cases v with
  | undefined => simp [cleanBase64, JsVal.truthy] at h
  | null => simp [cleanBase64, JsVal.truthy] at h
  | str s =>
    by_cases hs : (JsVal.str s).truthy = true
    · exact hs
    · rw [cleanBase64, if_neg hs] at h
      simp [JsVal.truthy] at h

theorem inputParts_take_of_tile (floor tile sofa bed color target pl : JsVal)
    (h : tile.truthy = true) :
    (inputParts floor tile sofa bed color target pl).take 3 =
      [Part.text (promptText tile color sofa pl),
        Part.inlineData (cleanBase64 floor) "image/jpeg",
        Part.inlineData (cleanBase64 tile) "image/jpeg"] := by
  rw [inputParts_eq, if_pos h]
  simp

theorem mem_inputParts_of_sofa (floor tile sofa bed color target pl : JsVal)
    (h : (cleanBase64 sofa).truthy = true) :
    Part.inlineData (cleanBase64 sofa) "image/jpeg" ∈
      inputParts floor tile sofa bed color target pl := by
  rw [inputParts_eq, if_pos h]
  simp

/-- C3 (as amended).  When a tile reference is present the instruction carries the
floor-replacement clause and the tile image is attached directly after the base photo;
when the sofa reference is present and stripping the data-URL prefix leaves it non-empty,
the instruction carries the furniture clause and the sofa image is attached.  Read from
the instruction text: provided the wall colour and placement text do not carry the
replacement clause themselves, an instruction that contains it has the tile image
directly after the base photo; provided the wall colour does not carry the opening of
the furniture clause, an instruction that contains it has the sofa image attached
whenever stripping does not empty the sofa reference. -/
theorem positional_references (floor tile sofa bed color target pl : JsVal) :
    (tile.truthy = true →
      occursIn floorReplaceText (promptText tile color sofa pl) ∧
      (inputParts floor tile sofa bed color target pl).take 3 =
        [Part.text (promptText tile color sofa pl),
          Part.inlineData (cleanBase64 floor) "image/jpeg",
          Part.inlineData (cleanBase64 tile) "image/jpeg"]) ∧
    ((cleanBase64 sofa).truthy = true →
      occursIn furnitureHead (promptText tile color sofa pl) ∧
      Part.inlineData (cleanBase64 sofa) "image/jpeg" ∈
        inputParts floor tile sofa bed color target pl) ∧
    ((color.truthy = true → ¬ occursIn floorReplaceStem color.toStr) →
      (sofa.truthy = true → ¬ occursIn floorReplaceStem pl.toStr) →
      occursIn floorReplaceText (promptText tile color sofa pl) →
      (inputParts floor tile sofa bed color target pl).take 3 =
        [Part.text (promptText tile color sofa pl),
          Part.inlineData (cleanBase64 floor) "image/jpeg",
          Part.inlineData (cleanBase64 tile) "image/jpeg"]) ∧
    ((color.truthy = true → ¬ occursIn furnitureHead color.toStr) →
      (sofa.truthy = true → (cleanBase64 sofa).truthy = true) →
      occursIn furnitureHead (promptText tile color sofa pl) →
      Part.inlineData (cleanBase64 sofa) "image/jpeg" ∈
        inputParts floor tile sofa bed color target pl) := by
  refine ⟨?_, ?_, ?_, ?_⟩
  · intro ht
    refine ⟨?_, inputParts_take_of_tile _ _ _ _ _ _ _ ht⟩
    apply occursIn_floor_slot
    rw [if_pos ht]
    exact occursIn_of_check (by decide)
  · intro hs
    refine ⟨?_, mem_inputParts_of_sofa _ _ _ _ _ _ _ hs⟩
    apply occursIn_furniture_slot
    rw [if_pos (truthy_of_cleanBase64_truthy _ hs)]
    exact occursIn_append_mid "" furnitureHead (pl.toStr ++ furnitureTail) |> fun h => by
      simpa [String.append_assoc] using h
  · intro hc hp h
    cases ht : tile.truthy with
    | true => exact inputParts_take_of_tile _ _ _ _ _ _ _ ht
    | false =>
      exfalso
      have hstem : occursIn floorReplaceStem floorReplaceText := occursIn_of_check (by decide)
      refine not_occursIn_promptText floorReplaceStem tile color sofa pl ?_ hc hp
        (occursIn_trans hstem h)
      rw [ht]
      cases color.truthy <;> cases sofa.truthy <;> decide
  · intro hc hclean h
    cases hs : sofa.truthy with
    | true => exact mem_inputParts_of_sofa _ _ _ _ _ _ _ (hclean hs)
    | false =>
      exfalso
      refine not_occursIn_promptText furnitureHead tile color sofa pl ?_ hc
        (fun h' => by simp [hs] at h') h
      rw [hs]
      cases tile.truthy <;> cases color.truthy <;> decide

/-- Witness for `positional_references`: a tile, a sofa and the colour `#10B981`; the
instruction contains the replacement clause, so the tile image follows the base photo. -/
theorem positional_references_witness :
    (inputParts (JsVal.str "F") (JsVal.str "T") (JsVal.str "S") JsVal.null
        (JsVal.str "#10B981") JsVal.undefined (JsVal.str "centered in the room")).take 3 =
      [Part.text (promptText (JsVal.str "T") (JsVal.str "#10B981") (JsVal.str "S")
          (JsVal.str "centered in the room")),
        Part.inlineData (cleanBase64 (JsVal.str "F")) "image/jpeg",
        Part.inlineData (cleanBase64 (JsVal.str "T")) "image/jpeg"] :=
  (positional_references (JsVal.str "F") (JsVal.str "T") (JsVal.str "S") JsVal.null
      (JsVal.str "#10B981") JsVal.undefined (JsVal.str "centered in the room")).2.2.1
    (fun _ => not_occursIn_of_check (by decide))
    (fun _ => not_occursIn_of_check (by decide))
    (occursIn_of_check (by decide))

/-- C3 fails as stated, in two ways.  A sofa reference that is only a data-URL prefix is
truthy, so the furniture clause is written, but it is stripped to the empty string and no
sofa image is attached: after the instruction the parts hold the base photo alone.  And with
no sofa at all, a wall colour that carries the furniture clause puts that clause into the
instruction, again with no sofa image. -/
theorem positional_references_counterexample :
    ((JsVal.str "data:image/png;base64,").truthy = true ∧
      occursIn "3. FURNITURE: Place the sofa from sofa.jpg "
        (promptText JsVal.null JsVal.null (JsVal.str "data:image/png;base64,") JsVal.undefined) ∧
      (inputParts (JsVal.str "F") JsVal.null (JsVal.str "data:image/png;base64,") JsVal.null
          JsVal.null JsVal.undefined JsVal.undefined).tail =
        [Part.inlineData (JsVal.str "F") "image/jpeg"]) ∧
    (occursIn (furnitureHead ++ "centered in the room" ++ furnitureTail)
        (promptText JsVal.null
          (JsVal.str (furnitureHead ++ "centered in the room" ++ furnitureTail))
          JsVal.null JsVal.undefined) ∧
      (inputParts (JsVal.str "F") JsVal.null JsVal.null JsVal.null
          (JsVal.str (furnitureHead ++ "centered in the room" ++ furnitureTail))
          JsVal.undefined JsVal.undefined).tail =
        [Part.inlineData (JsVal.str "F") "image/jpeg"]) :=
  ⟨⟨by decide, occursIn_of_check (by decide), by decide⟩,
    ⟨occursIn_of_check (by decide), by decide⟩⟩

/-! ## C4: the wall clause embeds the colour as supplied -/

/-- With a base photo the handler makes the calls of `generateRoomEdit`, whether the
run ends with an image or with an exception. -/
theorem editRoom_modelCalls (ai : GenerateContentRequest → ModelResult) (req : EditRoomBody)
    (h : req.floorImgBase64.truthy = true) :
    (editRoom ai req).modelCalls.map (fun r => r.parts) =
      [inputParts req.floorImgBase64 req.tileImgBase64.orNull req.sofaImgBase64.orNull
        req.bedImgBase64.orNull req.colorValue.orNull req.targetObjects req.sofaPlacement] := by
  have hc := generateRoomEdit_calls ai req.floorImgBase64 req.tileImgBase64.orNull
    req.sofaImgBase64.orNull req.bedImgBase64.orNull req.colorValue.orNull req.targetObjects
    req.sofaPlacement
  unfold editRoom
  simp only [h, Bool.not_true, Bool.false_eq_true, if_false]
  split <;> simp [hc]

theorem wallRepaintTail_data :
    wallRepaintTail.data = ".".data ++ wallRepaintTail.data.drop 1 := by decide

/-- C4.  For a request with a base photo and a non-empty wall colour `c`, the handler
calls the model once and the instruction it passes contains the repaint clause with `c`
exactly as supplied: the text "2. WALLS: Repaint EVERY visible wall surface in floor.jpg
with the hex color " directly followed by `c` and a full stop.  For a request with a base
photo and no wall colour (absent, null or empty) the instruction contains the
"Do NOT change the wall color" clause. -/
theorem wall_clause_embeds_color (ai : GenerateContentRequest → ModelResult)
    (req : EditRoomBody) :
    (∀ c : String, req.floorImgBase64.truthy = true → req.colorValue = JsVal.str c → c ≠ "" →
      ∃ instruction images,
        (editRoom ai req).modelCalls.map (fun r => r.parts) =
          [Part.text instruction :: images] ∧
        occursIn
          ("2. WALLS: Repaint EVERY visible wall surface in floor.jpg with the hex color "
            ++ c ++ ".") instruction) ∧
    (req.floorImgBase64.truthy = true → req.colorValue.truthy = false →
      ∃ instruction images,
        (editRoom ai req).modelCalls.map (fun r => r.parts) =
          [Part.text instruction :: images] ∧
        occursIn "Do NOT change the wall color" instruction) := by
  constructor
  · intro c hf hc hc0
    refine ⟨_, _, by rw [editRoom_modelCalls ai req hf, inputParts_eq], ?_⟩
    have ht : req.colorValue.orNull = JsVal.str c := by
      simp [JsVal.orNull, hc, JsVal.truthy, hc0]
    apply occursIn_wall_slot
    rw [ht, if_pos (by simp [JsVal.truthy, hc0])]
    unfold occursIn
    refine ⟨[], wallRepaintTail.data.drop 1, ?_⟩
    conv_rhs => rw [String.data_append, wallRepaintTail_data]
    simp [String.data_append, wallRepaintHead, JsVal.toStr]
  · intro hf hc
    refine ⟨_, _, by rw [editRoom_modelCalls ai req hf, inputParts_eq], ?_⟩
    have ht : req.colorValue.orNull = JsVal.null := by
      simp [JsVal.orNull, hc]
    apply occursIn_wall_slot
    rw [ht, if_neg (by decide)]
    exact occursIn_of_check (by decide)

/-- Witness for `wall_clause_embeds_color`: the request of the specification's example,
a base photo with wall colour `#10B981`, and a model that rejects. -/
theorem wall_clause_embeds_color_witness :
    ∃ instruction images,
      (editRoom (fun _ => ModelResult.rejects "quota")
          { floorImgBase64 := JsVal.str "data:image/jpeg;base64,AAAA"
            tileImgBase64 := JsVal.undefined
            sofaImgBase64 := JsVal.undefined
            bedImgBase64 := JsVal.undefined
            colorValue := JsVal.str "#10B981"
            targetObjects := JsVal.undefined
            sofaPlacement := JsVal.undefined }).modelCalls.map (fun r => r.parts) =
        [Part.text instruction :: images] ∧
      occursIn
        ("2. WALLS: Repaint EVERY visible wall surface in floor.jpg with the hex color "
          ++ "#10B981" ++ ".") instruction :=
  (wall_clause_embeds_color (fun _ => ModelResult.rejects "quota")
      { floorImgBase64 := JsVal.str "data:image/jpeg;base64,AAAA"
        tileImgBase64 := JsVal.undefined
        sofaImgBase64 := JsVal.undefined
        bedImgBase64 := JsVal.undefined
        colorValue := JsVal.str "#10B981"
        targetObjects := JsVal.undefined
        sofaPlacement := JsVal.undefined }).1 "#10B981" (by decide) rfl (by decide)

/-! ## C5: nothing selected -/

/-- C5.  Without a tile reference the instruction contains the "Do NOT change the floor"
clause and without a wall colour it contains the "Do NOT change the wall color" clause,
whatever the other inputs are; with no tile, no wall colour and no sofa the instruction is
the fixed text made of the head, those two clauses and the tail, it is the first part of
the parts list, and it contains no furniture clause ("3. FURNITURE:"). -/
theorem nothing_selected_keeps_floor_and_walls
    (floor tile sofa bed color target pl : JsVal) :
    (tile.truthy = false → occursIn "Do NOT change the floor" (promptText tile color sofa pl)) ∧
    (color.truthy = false →
      occursIn "Do NOT change the wall color" (promptText tile color sofa pl)) ∧
    (tile.truthy = false → color.truthy = false → sofa.truthy = false →
      (inputParts floor tile sofa bed color target pl).head? =
        some (Part.text (promptText tile color sofa pl)) ∧
      promptText tile color sofa pl =
        promptHead ++ floorKeepClause ++ wallKeepClause ++ promptTail ∧
      occursIn "Do NOT change the floor" (promptText tile color sofa pl) ∧
      occursIn "Do NOT change the wall color" (promptText tile color sofa pl) ∧
      ¬ occursIn "3. FURNITURE:" (promptText tile color sofa pl)) := by
  have hfloor : tile.truthy = false →
      occursIn "Do NOT change the floor" (promptText tile color sofa pl) := by
    intro ht
    apply occursIn_floor_slot
    rw [if_neg (by simp [ht])]
    exact occursIn_of_check (by decide)
  have hwall : color.truthy = false →
      occursIn "Do NOT change the wall color" (promptText tile color sofa pl) := by
    intro hc
    apply occursIn_wall_slot
    rw [if_neg (by simp [hc])]
    exact occursIn_of_check (by decide)
  refine ⟨hfloor, hwall, ?_⟩
  intro ht hc hs
  refine ⟨by rw [inputParts_eq]; rfl, ?_, hfloor ht, hwall hc, ?_⟩
  · rw [promptText_eq]
    apply String.ext
    simp [ht, hc, hs, String.data_append, data_empty]
  · refine not_occursIn_promptText "3. FURNITURE:" tile color sofa pl ?_
      (fun h => by simp [hc] at h) (fun h => by simp [hs] at h)
    rw [ht, hc, hs]
    decide

/-- Witness for `nothing_selected_keeps_floor_and_walls`: every optional field absent,
a stray placement text supplied. -/
theorem nothing_selected_keeps_floor_and_walls_witness :
    occursIn "Do NOT change the floor"
        (promptText JsVal.undefined JsVal.null (JsVal.str "") (JsVal.str "centered in the room")) ∧
      occursIn "Do NOT change the wall color"
        (promptText JsVal.undefined JsVal.null (JsVal.str "") (JsVal.str "centered in the room")) ∧
      ¬ occursIn "3. FURNITURE:"
        (promptText JsVal.undefined JsVal.null (JsVal.str "") (JsVal.str "centered in the room")) :=
  ((nothing_selected_keeps_floor_and_walls (JsVal.str "F") JsVal.undefined (JsVal.str "")
      JsVal.undefined JsVal.null (JsVal.str "both") (JsVal.str "centered in the room")).2.2
    (by decide) (by decide) (by decide)).2.2

/-! ## C6: the furniture clause -/

/-- C6.  The third step of the builder appends the furniture clause exactly when a sofa
reference is present: the task text is the task text built without a sofa, followed by
the clause when a sofa is present and by nothing otherwise.  The clause is the opening
"3. FURNITURE: Place the sofa from sofa.jpg ", the placement text as supplied, then the
wall-snapping, perspective, realism and "DO NOT alter any other part of the room"
requirements in that order.  With a sofa the instruction contains this clause; without
one the instruction does not depend on the placement text and, unless the wall colour
itself carries the label, contains no "3. FURNITURE:". -/
theorem furniture_clause_iff_sofa (tile color sofa pl : JsVal) :
    specificTask tile color sofa pl =
      specificTask tile color JsVal.null JsVal.undefined ++
        (if sofa.truthy = true then furnitureHead ++ pl.toStr ++ furnitureTail else "") ∧
    (∀ p : String, sofa.truthy = true → pl = JsVal.str p →
      occursIn
        ("3. FURNITURE: Place the sofa from sofa.jpg " ++ p ++ furnitureTail)
        (promptText tile color sofa pl)) ∧
    (∃ a b c d,
      furnitureTail =
        ". \n    - WALL SNAPPING:" ++ a ++ "\n    - PERSPECTIVE:" ++ b ++ "\n    - REALISM:" ++ c
          ++ "\n    - DO NOT alter any other part of the room" ++ d) ∧
    (sofa.truthy = false →
      promptText tile color sofa pl = promptText tile color JsVal.null JsVal.undefined ∧
      ((color.truthy = true → ¬ occursIn "3. FURNITURE:" color.toStr) →
        ¬ occursIn "3. FURNITURE:" (promptText tile color sofa pl))) := by
  have hn : JsVal.null.truthy = false := rfl
  refine ⟨?_, ?_, ?_, ?_⟩
  · apply String.ext
    cases ht : tile.truthy <;> cases hc : color.truthy <;> cases hs : sofa.truthy <;>
      simp [specificTask, String.data_append, data_empty, ht, hc, hs, hn]
  · intro p hs hp
    subst hp
    apply occursIn_furniture_slot
    rw [if_pos hs]
    exact List.infix_refl _
  · exact ⟨" If a wall is specified, the furniture must be flush against it with no visible gap.",
      " The sofa must be skewed and scaled to match the vanishing points of floor.jpg. ",
      " Ensure it sits naturally on the floor with realistic ambient occlusion and contact shadows where it touches the floor and wall. ",
      " while adding this sofa. ", by decide⟩
  · intro hs
    constructor
    · apply String.ext
      cases ht : tile.truthy <;> cases hc : color.truthy <;>
        simp [promptText, specificTask, String.data_append, data_empty, ht, hc, hs, hn]
    · intro hc
      refine not_occursIn_promptText "3. FURNITURE:" tile color sofa pl ?_ hc
        (fun h => by simp [hs] at h)
      rw [hs]
      cases tile.truthy <;> cases color.truthy <;> decide

/-- Witness for `furniture_clause_iff_sofa`: a sofa placed "centered in the room". -/
theorem furniture_clause_iff_sofa_witness :
    occursIn
      ("3. FURNITURE: Place the sofa from sofa.jpg " ++ "centered in the room" ++ furnitureTail)
      (promptText JsVal.null JsVal.null (JsVal.str "S") (JsVal.str "centered in the room")) :=
  (furniture_clause_iff_sofa JsVal.null JsVal.null (JsVal.str "S")
    (JsVal.str "centered in the room")).2.1 "centered in the room" (by decide) rfl

/-! ## C7: the side named by the placement clause -/

theorem digitChar_isDigit : ∀ m, m < 10 → (Nat.digitChar m).isDigit = true := by decide

theorem toDigitsCore_isDigit :
    ∀ (fuel n : Nat) (ds : List Char), (∀ c ∈ ds, c.isDigit = true) →
      ∀ c ∈ Nat.toDigitsCore 10 fuel n ds, c.isDigit = true
  | 0, _, ds, hds => by simpa [Nat.toDigitsCore] using hds
  | fuel + 1, n, ds, hds => by
    have hd : (Nat.digitChar (n % 10)).isDigit = true :=
      digitChar_isDigit _ (Nat.mod_lt _ (by decide))
    have hds' : ∀ c ∈ Nat.digitChar (n % 10) :: ds, c.isDigit = true := by
      intro c hc
      rcases List.mem_cons.mp hc with h | h
      · rw [h]; exact hd
      · exact hds c h
    rw [Nat.toDigitsCore]
    split
    · exact hds'
    · exact toDigitsCore_isDigit fuel _ _ hds'

/-- Every character of the decimal text of a number is a digit or the minus sign. -/
theorem numToString_chars (n : Int) :
    ∀ c ∈ (numToString n).data, c = '-' ∨ c.isDigit = true := by
  have hdig : ∀ c ∈ Nat.toDigits 10 n.natAbs, c.isDigit = true :=
    toDigitsCore_isDigit _ _ [] (by simp)
  intro c hc
  unfold numToString at hc
  split at hc
  · rw [String.data_append] at hc
    rcases List.mem_append.mp hc with h | h
    · left; simpa using h
    · right; exact hdig c h
  · right; exact hdig c hc

/-- The decimal text is the one Lean prints for the integer. -/
theorem numToString_eq_toString (n : Int) : numToString n = toString n := by
  cases n with
  | ofNat m =>
    have h : ¬ (Int.ofNat m < 0) := by simp
    simp only [numToString, h, if_false]
    rfl
  | negSucc m =>
    have h : Int.negSucc m < 0 := Int.negSucc_lt_zero m
    simp only [numToString, h, if_true]
    rfl

theorem not_occursIn_numToString (P : String) (n : Int)
    (h : ∃ c ∈ P.data, c ≠ '-' ∧ c.isDigit = false) : ¬ occursIn P (numToString n) := by
  obtain ⟨c, hc, hne, hnd⟩ := h
  intro hP
  rcases numToString_chars n c (hP.subset hc) with h1 | h2
  · exact hne h1
  · rw [h2] at hnd; cases hnd

theorem occursIn_append_right {p t : String} (a : String) (h : occursIn p t) :
    occursIn p (a ++ t) := by
  unfold occursIn at *
  rw [String.data_append]
  exact h.trans (List.suffix_append _ _).isInfix

theorem data_append_mono (a c t : String) (h : c.data <+: t.data) :
    (a ++ c).data <+: (a ++ t).data := by
  simp only [String.data_append]
  exact (List.prefix_append_right_inj _).mpr h

theorem sofaPlacementDescription_eq (x y : Int) :
    sofaPlacementDescription (some ⟨x, y⟩) =
      ("at coordinates X: " ++ numToString x ++ ", Y: " ++ numToString y) ++
        (". \n        It MUST be placed flush against the "
          ++ (if x < 600 then "LEFT" else "RIGHT")
          ++ " wall, aligned parallel to that wall's perspective. \n        The back of the sofa should touch the "
          ++ (if x < 600 then "LEFT" else "RIGHT")
          ++ " wall, facing the center of the room.") := by
  have h600 : (1200 : Int) / 2 = 600 := by decide
  apply String.ext
  simp [sofaPlacementDescription, String.data_append, h600]

theorem sofaPlacementDescription_data (x y : Int) :
    (sofaPlacementDescription (some ⟨x, y⟩)).data =
      assemble "at coordinates X: ".data
        [((numToString x).data, ", Y: ".data),
          ((numToString y).data,
            (". \n        It MUST be placed flush against the "
              ++ (if x < 600 then "LEFT" else "RIGHT")
              ++ " wall, aligned parallel to that wall's perspective. \n        The back of the sofa should touch the "
              ++ (if x < 600 then "LEFT" else "RIGHT")
              ++ " wall, facing the center of the room.").data)] := by
  rw [sofaPlacementDescription_eq]
  simp [assemble, String.data_append]

theorem not_occursIn_placement (P : String) (x y : Int)
    (hP : ∃ c ∈ P.data, c ≠ '-' ∧ c.isDigit = false)
    (h1 : segOk P.data "at coordinates X: ".data = true)
    (h2 : segOk P.data ", Y: ".data = true)
    (h3 : segOk P.data
      (". \n        It MUST be placed flush against the "
        ++ (if x < 600 then "LEFT" else "RIGHT")
        ++ " wall, aligned parallel to that wall's perspective. \n        The back of the sofa should touch the "
        ++ (if x < 600 then "LEFT" else "RIGHT")
        ++ " wall, facing the center of the room.").data = true) :
    ¬ occursIn P (sofaPlacementDescription (some ⟨x, y⟩)) := by
  unfold occursIn
  rw [sofaPlacementDescription_data]
  refine not_infix_assemble _ _ _ h1 ?_
  intro vX hv
  simp only [List.mem_cons, List.mem_singleton, List.not_mem_nil, or_false] at hv
  rcases hv with rfl | rfl
  · exact ⟨not_occursIn_numToString P x hP, h2⟩
  · exact ⟨not_occursIn_numToString P y hP, h3⟩

theorem digitChar_value : ∀ m, m < 10 → (Nat.digitChar m).toNat - '0'.toNat = m := by decide

theorem toDigitsCore_append :
    ∀ (fuel n : Nat) (ds : List Char),
      Nat.toDigitsCore 10 fuel n ds = Nat.toDigitsCore 10 fuel n [] ++ ds
  | 0, _, ds => by simp [Nat.toDigitsCore]
  | fuel + 1, n, ds => by
    rw [Nat.toDigitsCore, Nat.toDigitsCore]
    by_cases h : n / 10 = 0
    · simp [h]
    · simp only [h, if_false]
      rw [toDigitsCore_append fuel (n / 10) (Nat.digitChar (n % 10) :: ds),
        toDigitsCore_append fuel (n / 10) [Nat.digitChar (n % 10)]]
      simp

theorem decimalValue_concat (cs : List Char) (c : Char) :
    decimalValue (cs ++ [c]) = 10 * decimalValue cs + (c.toNat - '0'.toNat) := by
  simp [decimalValue, List.foldl_append]

theorem decimalValue_toDigitsCore :
    ∀ (fuel n : Nat), n < fuel → decimalValue (Nat.toDigitsCore 10 fuel n []) = n
  | 0, _, h => by omega
  | fuel + 1, n, h => by
    rw [Nat.toDigitsCore]
    by_cases h0 : n / 10 = 0
    · simp only [h0, if_true]
      have hn : n < 10 := by omega
      have := digitChar_value (n % 10) (Nat.mod_lt _ (by decide))
      simp only [decimalValue, List.foldl_cons, List.foldl_nil, Nat.mul_zero, Nat.zero_add]
      rw [this]
      exact Nat.mod_eq_of_lt hn
    · simp only [h0, if_false]
      rw [toDigitsCore_append, decimalValue_concat,
        decimalValue_toDigitsCore fuel (n / 10) (by omega),
        digitChar_value (n % 10) (Nat.mod_lt _ (by decide))]
      omega

theorem decimalValue_toDigits (n : Nat) : decimalValue (Nat.toDigits 10 n) = n :=
  decimalValue_toDigitsCore (n + 1) n (Nat.lt_succ_self n)

theorem toDigits_ne_nil (n : Nat) : Nat.toDigits 10 n ≠ [] := by
  unfold Nat.toDigits
  rw [Nat.toDigitsCore]
  by_cases h : n / 10 = 0
  · simp [h]
  · simp only [h, if_false]
    rw [toDigitsCore_append]
    simp

/-- The decimal text denotes the number it was made from. -/
theorem numeralValue_numToString (n : Int) : numeralValue (numToString n).data = n := by
  unfold numToString
  by_cases hn : n < 0
  · simp only [hn, if_true, String.data_append]
    show numeralValue ('-' :: Nat.toDigits 10 n.natAbs) = n
    simp only [numeralValue, if_true, decimalValue_toDigits]
    omega
  · simp only [hn, if_false]
    cases hd : Nat.toDigits 10 n.natAbs with
    | nil => exact absurd hd (toDigits_ne_nil _)
    | cons c rest =>
      have hc : c.isDigit = true :=
        toDigitsCore_isDigit _ _ [] (by simp) c (by
          show c ∈ Nat.toDigits 10 n.natAbs
          rw [hd]; exact List.mem_cons_self _ _)
      have hne : c ≠ '-' := by
        intro h; rw [h] at hc; revert hc; decide
      simp only [numeralValue, hne, if_false]
      rw [← hd, decimalValue_toDigits]
      omega

/-- C7.  For every recorded click `(x, y)` the placement clause names the LEFT wall, in
both places where a wall is named, when `x < 600` and the RIGHT wall when `x >= 600` (so
`x = 600` gives RIGHT); the other side does not occur anywhere in the clause.  The clause
starts with the raw coordinates, `at coordinates X: x, Y: y. `, where `x` and `y` are
written as the standard decimal text of the integers, and read back as decimal numerals
these two texts denote `x` and `y`.  The clause is the value sent as `sofaPlacement`. -/
theorem placement_names_side (x y : Int) (roomBase64 : String)
    (tileBase64 sofaBase64 wColor : Option String) :
    (if x < 600 then
      occursIn "flush against the LEFT wall" (sofaPlacementDescription (some ⟨x, y⟩)) ∧
      occursIn "touch the LEFT wall" (sofaPlacementDescription (some ⟨x, y⟩)) ∧
      ¬ occursIn "RIGHT" (sofaPlacementDescription (some ⟨x, y⟩))
    else
      occursIn "flush against the RIGHT wall" (sofaPlacementDescription (some ⟨x, y⟩)) ∧
      occursIn "touch the RIGHT wall" (sofaPlacementDescription (some ⟨x, y⟩)) ∧
      ¬ occursIn "LEFT" (sofaPlacementDescription (some ⟨x, y⟩))) ∧
    ("at coordinates X: " ++ toString x ++ ", Y: " ++ toString y ++ ". ").data <+:
      (sofaPlacementDescription (some ⟨x, y⟩)).data ∧
    numeralValue (toString x).data = x ∧
    numeralValue (toString y).data = y ∧
    (performAiUpdateBody roomBase64 tileBase64 sofaBase64 wColor (some ⟨x, y⟩)).sofaPlacement =
      JsVal.str (sofaPlacementDescription (some ⟨x, y⟩)) := by
  refine ⟨?_, ?_, ?_, ?_, rfl⟩
  · by_cases hx : x < 600
    · rw [if_pos hx]
      refine ⟨?_, ?_, ?_⟩
      · rw [sofaPlacementDescription_eq, if_pos hx]
        exact occursIn_append_right _ (occursIn_of_check (by decide))
      · rw [sofaPlacementDescription_eq, if_pos hx]
        exact occursIn_append_right _ (occursIn_of_check (by decide))
      · refine not_occursIn_placement "RIGHT" x y ⟨'R', by decide, by decide, by decide⟩
          (by decide) (by decide) ?_
        rw [if_pos hx]
        decide
    · rw [if_neg hx]
      refine ⟨?_, ?_, ?_⟩
      · rw [sofaPlacementDescription_eq, if_neg hx]
        exact occursIn_append_right _ (occursIn_of_check (by decide))
      · rw [sofaPlacementDescription_eq, if_neg hx]
        exact occursIn_append_right _ (occursIn_of_check (by decide))
      · refine not_occursIn_placement "LEFT" x y ⟨'L', by decide, by decide, by decide⟩
          (by decide) (by decide) ?_
        rw [if_neg hx]
        decide
  · rw [sofaPlacementDescription_eq, ← numToString_eq_toString x, ← numToString_eq_toString y]
    by_cases hx : x < 600
    · rw [if_pos hx]
      exact data_append_mono _ _ _ (List.isPrefixOf_iff_prefix.mp (by decide))
    · rw [if_neg hx]
      exact data_append_mono _ _ _ (List.isPrefixOf_iff_prefix.mp (by decide))
  · rw [← numToString_eq_toString]
    exact numeralValue_numToString x
  · rw [← numToString_eq_toString]
    exact numeralValue_numToString y

/-- The boundary click `x = 600` on the 1200-wide canvas: the clause names RIGHT. -/
theorem placement_at_boundary :
    sofaPlacementDescription (some ⟨600, 400⟩) =
      "at coordinates X: 600, Y: 400. \n        It MUST be placed flush against the RIGHT wall, aligned parallel to that wall's perspective. \n        The back of the sofa should touch the RIGHT wall, facing the center of the room." := by
  decide

/-! ## C8: the default placement clause -/

/-- C8 (as amended).  With no coordinate recorded the placement clause is exactly the
string "centered in the room", without a full stop, and that is what is sent as
`sofaPlacement`; the full stop that follows it in the instruction comes from the
builder's template. -/
theorem default_placement (roomBase64 : String) (tileBase64 sofaBase64 wColor : Option String) :
    sofaPlacementDescription none = "centered in the room" ∧
    (performAiUpdateBody roomBase64 tileBase64 sofaBase64 wColor none).sofaPlacement =
      JsVal.str "centered in the room" ∧
    occursIn "Place the sofa from sofa.jpg centered in the room. \n"
      (promptText JsVal.null JsVal.null (JsVal.str "S")
        (JsVal.str (sofaPlacementDescription none))) :=
  ⟨rfl, rfl, occursIn_of_check (by decide)⟩

/-- C8 fails as stated: the string sent has no trailing full stop. -/
theorem default_placement_counterexample :
    (performAiUpdateBody "R" none (some "S") none none).sofaPlacement ≠
      JsVal.str "centered in the room." := by
  decide

/-! ## C9: missing base photo -/

theorem editRoom_of_floor (ai : GenerateContentRequest → ModelResult) (req : EditRoomBody)
    (h : req.floorImgBase64.truthy = true) :
    (editRoom ai req).modelCalls =
        [{ model := "gemini-2.5-flash-image"
           parts := inputParts req.floorImgBase64 req.tileImgBase64.orNull
             req.sofaImgBase64.orNull req.bedImgBase64.orNull req.colorValue.orNull
             req.targetObjects req.sofaPlacement
           responseModalities := ["IMAGE"] }] ∧
      ((editRoom ai req).status = 200 ∨ (editRoom ai req).status = 500) := by
  have hc := generateRoomEdit_calls ai req.floorImgBase64 req.tileImgBase64.orNull
    req.sofaImgBase64.orNull req.bedImgBase64.orNull req.colorValue.orNull req.targetObjects
    req.sofaPlacement
  unfold editRoom
  simp only [h, Bool.not_true, Bool.false_eq_true, if_false]
  split <;> simp [hc]

/-- C9.  A request whose base photo is missing or empty is answered with status 400 and
the error body "Missing floorImgBase64.", and the model is not called; and a 400 is
returned only for such a request. -/
theorem missing_base_photo (ai : GenerateContentRequest → ModelResult) (req : EditRoomBody) :
    (req.floorImgBase64.truthy = false →
      editRoom ai req =
        { modelCalls := [], status := 400,
          body := ResponseBody.error "Missing floorImgBase64." }) ∧
    ((editRoom ai req).status = 400 → req.floorImgBase64.truthy = false) := by
  constructor
  · intro h
    simp [editRoom, h]
  · intro h
    cases hf : req.floorImgBase64.truthy with
    | false => rfl
    | true =>
      rcases (editRoom_of_floor ai req hf).2 with h2 | h5
      · rw [h2] at h; cases h
      · rw [h5] at h; cases h

/-- Witness for `missing_base_photo`: a request with an empty base photo and every
other field set, sent to a model that would return an image. -/
theorem missing_base_photo_witness :
    editRoom
        (fun _ => ModelResult.resolves
          { candidates := some
              [{ content := some { parts := some [{ inlineData := some { data := JsVal.str "IMG" } }] } }] })
        { floorImgBase64 := JsVal.str ""
          tileImgBase64 := JsVal.str "T"
          sofaImgBase64 := JsVal.str "S"
          bedImgBase64 := JsVal.str "B"
          colorValue := JsVal.str "#10B981"
          targetObjects := JsVal.str "both"
          sofaPlacement := JsVal.str "centered in the room" } =
      { modelCalls := [], status := 400, body := ResponseBody.error "Missing floorImgBase64." } :=
  (missing_base_photo _ _).1 (by decide)

/-! ## C10: a request with only the base photo -/

theorem orNull_of_falsy (v : JsVal) (h : v.truthy = false) : v.orNull = JsVal.null := by
  simp [JsVal.orNull, h]

theorem promptText_of_nothing (tile color sofa pl : JsVal) (ht : tile.truthy = false)
    (hc : color.truthy = false) (hs : sofa.truthy = false) :
    promptText tile color sofa pl =
      promptHead ++ floorKeepClause ++ wallKeepClause ++ promptTail := by
  rw [promptText_eq]
  apply String.ext
  simp [ht, hc, hs, String.data_append, data_empty]

/-- C10 (as amended).  A request in which only the base photo is set is not rejected:
the status is never 400.  The handler calls the model exactly once, with the instruction
made of the head, the "Do NOT change the floor" clause, the "Do NOT change the wall color"
clause and the tail (no furniture clause) and with the base photo as the only image, and
answers 200 or 500 according to the outcome of that call. -/
theorem only_base_photo (ai : GenerateContentRequest → ModelResult) (req : EditRoomBody)
    (hf : req.floorImgBase64.truthy = true) (ht : req.tileImgBase64.truthy = false)
    (hs : req.sofaImgBase64.truthy = false) (hb : req.bedImgBase64.truthy = false)
    (hc : req.colorValue.truthy = false) :
    (editRoom ai req).status ≠ 400 ∧
    ((editRoom ai req).status = 200 ∨ (editRoom ai req).status = 500) ∧
    (editRoom ai req).modelCalls =
      [{ model := "gemini-2.5-flash-image"
         parts :=
           [Part.text (promptHead ++ floorKeepClause ++ wallKeepClause ++ promptTail),
            Part.inlineData (cleanBase64 req.floorImgBase64) "image/jpeg"]
         responseModalities := ["IMAGE"] }] := by
  obtain ⟨hcalls, hstatus⟩ := editRoom_of_floor ai req hf
  refine ⟨?_, hstatus, ?_⟩
  · rcases hstatus with h | h <;> rw [h] <;> decide
  · have hn : JsVal.null.truthy = false := rfl
    have hcn : (cleanBase64 JsVal.null).truthy = false := rfl
    rw [hcalls, inputParts_eq, orNull_of_falsy _ ht, orNull_of_falsy _ hs, orNull_of_falsy _ hb,
      orNull_of_falsy _ hc, promptText_of_nothing _ _ _ _ hn hn hn]
    simp [hn, hcn]

/-- Witness for `only_base_photo`: only the base photo set, the model returns an image;
the answer is 200 with that image. -/
theorem only_base_photo_witness :
    (editRoom
        (fun _ => ModelResult.resolves
          { candidates := some
              [{ content := some { parts := some [{ inlineData := some { data := JsVal.str "IMG" } }] } }] })
        { floorImgBase64 := JsVal.str "data:image/jpeg;base64,AAAA"
          tileImgBase64 := JsVal.undefined
          sofaImgBase64 := JsVal.undefined
          bedImgBase64 := JsVal.undefined
          colorValue := JsVal.undefined
          targetObjects := JsVal.undefined
          sofaPlacement := JsVal.undefined }).status ≠ 400 :=
  (only_base_photo _ _ (by decide) (by decide) (by decide) (by decide) (by decide)).1

/-- C10 fails as stated: for a request with only the base photo the handler calls the
model and, when the model returns an image, answers 200 with it. -/
theorem only_base_photo_counterexample :
    (editRoom
        (fun _ => ModelResult.resolves
          { candidates := some
              [{ content := some { parts := some [{ inlineData := some { data := JsVal.str "IMG" } }] } }] })
        { floorImgBase64 := JsVal.str "data:image/jpeg;base64,AAAA"
          tileImgBase64 := JsVal.undefined
          sofaImgBase64 := JsVal.undefined
          bedImgBase64 := JsVal.undefined
          colorValue := JsVal.undefined
          targetObjects := JsVal.undefined
          sofaPlacement := JsVal.undefined }).status = 200 ∧
    (editRoom
        (fun _ => ModelResult.resolves
          { candidates := some
              [{ content := some { parts := some [{ inlineData := some { data := JsVal.str "IMG" } }] } }] })
        { floorImgBase64 := JsVal.str "data:image/jpeg;base64,AAAA"
          tileImgBase64 := JsVal.undefined
          sofaImgBase64 := JsVal.undefined
          bedImgBase64 := JsVal.undefined
          colorValue := JsVal.undefined
          targetObjects := JsVal.undefined
          sofaPlacement := JsVal.undefined }).body = ResponseBody.success (JsVal.str "IMG") ∧
    (editRoom
        (fun _ => ModelResult.resolves
          { candidates := some
              [{ content := some { parts := some [{ inlineData := some { data := JsVal.str "IMG" } }] } }] })
        { floorImgBase64 := JsVal.str "data:image/jpeg;base64,AAAA"
          tileImgBase64 := JsVal.undefined
          sofaImgBase64 := JsVal.undefined
          bedImgBase64 := JsVal.undefined
          colorValue := JsVal.undefined
          targetObjects := JsVal.undefined
          sofaPlacement := JsVal.undefined }).modelCalls.length = 1 := by
  refine ⟨by decide, by decide, by decide⟩

/-! ## C11: a response without an image -/

/-- With a base photo and a model call that resolves, the handler answers with what
`extractImage` makes of the response. -/
theorem editRoom_of_response (ai : GenerateContentRequest → ModelResult) (req : EditRoomBody)
    (r : GenResponse) (hf : req.floorImgBase64.truthy = true)
    (hai : ∀ q ∈ (editRoom ai req).modelCalls, ai q = ModelResult.resolves r) :
    ((editRoom ai req).status, (editRoom ai req).body) =
      match extractImage r with
      | Except.ok editedImage => (200, ResponseBody.success editedImage)
      | Except.error err => (500, ResponseBody.error err.message) := by
  have hq := hai _ (by rw [(editRoom_of_floor ai req hf).1]; exact List.mem_singleton_self _)
  unfold editRoom generateRoomEdit
  simp only [hf, Bool.not_true, Bool.false_eq_true, if_false, hq]
  cases extractImage r <;> rfl

/-- A response none of whose first-candidate parts carries `inlineData` is answered with
status 500 and an error body, never with 200; when the first candidate has a parts list,
the message is "Did not return an image.". -/
theorem editRoom_no_image (ai : GenerateContentRequest → ModelResult) (req : EditRoomBody)
    (r : GenResponse) (hf : req.floorImgBase64.truthy = true)
    (hai : ∀ q ∈ (editRoom ai req).modelCalls, ai q = ModelResult.resolves r)
    (hnone : ∀ cs c ct ps, r.candidates = some cs → cs.head? = some c → c.content = some ct →
      ct.parts = some ps → ∀ p ∈ ps, p.inlineData = none) :
    (editRoom ai req).status = 500 ∧
    (∃ m, (editRoom ai req).body = ResponseBody.error m) ∧
    (∀ cs c ct ps, r.candidates = some cs → cs.head? = some c → c.content = some ct →
      ct.parts = some ps →
      (editRoom ai req).body = ResponseBody.error "Did not return an image.") := by
  have h := editRoom_of_response ai req r hf hai
  have hfind : ∀ ps : List RespPart, (∀ p ∈ ps, p.inlineData = none) →
      ps.find? (fun p => p.inlineData.isSome) = none := by
    intro ps hps
    rw [List.find?_eq_none]
    intro p hp
    simp [hps p hp]
  have key : (∃ m, extractImage r = Except.error m) ∧
      (∀ cs c ct ps, r.candidates = some cs → cs.head? = some c → c.content = some ct →
        ct.parts = some ps →
        extractImage r = Except.error (JsError.error "Did not return an image.")) := by
    cases hcs : r.candidates with
    | none =>
      have he : extractImage r = Except.error (JsError.typeError "0") := by
        simp [extractImage, hcs]
      exact ⟨⟨_, he⟩, by intro cs c ct ps h1; cases h1⟩
    | some cs =>
      cases hc : cs.head? with
      | none =>
        have he : extractImage r = Except.error (JsError.typeError "content") := by
          simp [extractImage, hcs, hc]
        exact ⟨⟨_, he⟩, by intro cs' c ct ps h1 h2; cases h1; rw [hc] at h2; cases h2⟩
      | some c =>
        cases hct : c.content with
        | none =>
          have he : extractImage r = Except.error (JsError.typeError "parts") := by
            simp [extractImage, hcs, hc, hct]
          exact ⟨⟨_, he⟩, by
            intro cs' c' ct ps h1 h2 h3
            cases h1; rw [hc] at h2; cases h2; rw [hct] at h3; cases h3⟩
        | some ct =>
          cases hps : ct.parts with
          | none =>
            have he : extractImage r = Except.error (JsError.typeError "find") := by
              simp [extractImage, hcs, hc, hct, hps]
            exact ⟨⟨_, he⟩, by
              intro cs' c' ct' ps h1 h2 h3 h4
              cases h1; rw [hc] at h2; cases h2; rw [hct] at h3; cases h3
              rw [hps] at h4; cases h4⟩
          | some ps =>
            have hf0 := hfind ps (hnone cs c ct ps hcs hc hct hps)
            have he : extractImage r =
                Except.error (JsError.error "Did not return an image.") := by
              simp [extractImage, hcs, hc, hct, hps, hf0]
            exact ⟨⟨_, he⟩, fun _ _ _ _ _ _ _ _ => he⟩
  obtain ⟨⟨m, hm⟩, hmsg⟩ := key
  rw [hm] at h
  simp only [Prod.mk.injEq] at h
  refine ⟨h.1, ⟨_, h.2⟩, ?_⟩
  intro cs c ct ps h1 h2 h3 h4
  have := hmsg cs c ct ps h1 h2 h3 h4
  rw [this] at hm
  cases hm
  exact h.2

/-- C11 at its failing inputs.  For a request with a base photo, a model response with an
empty candidates list, or with no candidates field, is answered with status 500, but the
error body carries the message of the `TypeError` raised by `result.candidates[0].content`,
not "Did not return an image."; a response whose first candidate has an empty parts list
is answered with status 500 and "Did not return an image.". -/
theorem no_candidates_message :
    ((editRoom (fun _ => ModelResult.resolves { candidates := some [] })
        { floorImgBase64 := JsVal.str "data:image/jpeg;base64,AAAA"
          tileImgBase64 := JsVal.undefined
          sofaImgBase64 := JsVal.undefined
          bedImgBase64 := JsVal.undefined
          colorValue := JsVal.str "#10B981"
          targetObjects := JsVal.undefined
          sofaPlacement := JsVal.undefined }).status = 500 ∧
      (editRoom (fun _ => ModelResult.resolves { candidates := some [] })
        { floorImgBase64 := JsVal.str "data:image/jpeg;base64,AAAA"
          tileImgBase64 := JsVal.undefined
          sofaImgBase64 := JsVal.undefined
          bedImgBase64 := JsVal.undefined
          colorValue := JsVal.str "#10B981"
          targetObjects := JsVal.undefined
          sofaPlacement := JsVal.undefined }).body =
        ResponseBody.error "Cannot read properties of undefined (reading 'content')") ∧
    ((editRoom (fun _ => ModelResult.resolves { candidates := none })
        { floorImgBase64 := JsVal.str "data:image/jpeg;base64,AAAA"
          tileImgBase64 := JsVal.undefined
          sofaImgBase64 := JsVal.undefined
          bedImgBase64 := JsVal.undefined
          colorValue := JsVal.str "#10B981"
          targetObjects := JsVal.undefined
          sofaPlacement := JsVal.undefined }).status = 500 ∧
      (editRoom (fun _ => ModelResult.resolves { candidates := none })
        { floorImgBase64 := JsVal.str "data:image/jpeg;base64,AAAA"
          tileImgBase64 := JsVal.undefined
          sofaImgBase64 := JsVal.undefined
          bedImgBase64 := JsVal.undefined
          colorValue := JsVal.str "#10B981"
          targetObjects := JsVal.undefined
          sofaPlacement := JsVal.undefined }).body =
        ResponseBody.error "Cannot read properties of undefined (reading '0')") ∧
    ((editRoom
        (fun _ => ModelResult.resolves
          { candidates := some [{ content := some { parts := some [] } }] })
        { floorImgBase64 := JsVal.str "data:image/jpeg;base64,AAAA"
          tileImgBase64 := JsVal.undefined
          sofaImgBase64 := JsVal.undefined
          bedImgBase64 := JsVal.undefined
          colorValue := JsVal.str "#10B981"
          targetObjects := JsVal.undefined
          sofaPlacement := JsVal.undefined }).status = 500 ∧
      (editRoom
        (fun _ => ModelResult.resolves
          { candidates := some [{ content := some { parts := some [] } }] })
        { floorImgBase64 := JsVal.str "data:image/jpeg;base64,AAAA"
          tileImgBase64 := JsVal.undefined
          sofaImgBase64 := JsVal.undefined
          bedImgBase64 := JsVal.undefined
          colorValue := JsVal.str "#10B981"
          targetObjects := JsVal.undefined
          sofaPlacement := JsVal.undefined }).body =
        ResponseBody.error "Did not return an image.") := by
  refine ⟨⟨by decide, by decide⟩, ⟨by decide, by decide⟩, ⟨by decide, by decide⟩⟩

/-! ## C12: the first image of the response is returned -/

/-- A list with a part carrying `inlineData` splits at the first such part, and `find?`
returns that part. -/
theorem find_first_image :
    ∀ ps : List RespPart, (∃ p ∈ ps, p.inlineData.isSome = true) →
      ∃ pre d post, ps = pre ++ { inlineData := some d } :: post ∧
        (∀ q ∈ pre, q.inlineData = none) ∧
        ps.find? (fun p => p.inlineData.isSome) = some { inlineData := some d }
  | [], h => by
    obtain ⟨p, hp, -⟩ := h
    cases hp
  | p :: ps, h => by
    cases hd : p.inlineData with
    | some d =>
      refine ⟨[], d, ps, ?_, by simp, ?_⟩
      · cases p
        simp only [List.nil_append, List.cons.injEq, and_true]
        simpa using hd
      · cases p
        simp only at hd
        simp [List.find?, hd]
    | none =>
      have h' : ∃ q ∈ ps, q.inlineData.isSome = true := by
        obtain ⟨q, hq, hqs⟩ := h
        rcases List.mem_cons.mp hq with rfl | hq'
        · rw [hd] at hqs; cases hqs
        · exact ⟨q, hq', hqs⟩
      obtain ⟨pre, d, post, hsplit, hpre, hfind⟩ := find_first_image ps h'
      refine ⟨p :: pre, d, post, by rw [hsplit]; rfl, ?_, ?_⟩
      · intro q hq
        rcases List.mem_cons.mp hq with rfl | hq'
        · exact hd
        · exact hpre q hq'
      · simp [List.find?, hd, hfind]

/-- C12.  For a request with a base photo and a model response whose first candidate has
a parts list with at least one part carrying `inlineData`, the parts list splits into
parts without `inlineData`, the first part that carries it, and the rest; the handler
answers with status 200 and the success body whose image is the `data` of that first
part, whatever the later parts are. -/
theorem first_image_returned (ai : GenerateContentRequest → ModelResult) (req : EditRoomBody)
    (r : GenResponse) (c : Candidate) (cs : List Candidate) (ct : Content)
    (ps : List RespPart)
    (hf : req.floorImgBase64.truthy = true)
    (hai : ∀ q ∈ (editRoom ai req).modelCalls, ai q = ModelResult.resolves r)
    (hcs : r.candidates = some (c :: cs)) (hct : c.content = some ct)
    (hps : ct.parts = some ps) (himg : ∃ p ∈ ps, p.inlineData.isSome = true) :
    ∃ pre d post, ps = pre ++ { inlineData := some d } :: post ∧
      (∀ q ∈ pre, q.inlineData = none) ∧
      (editRoom ai req).status = 200 ∧
      (editRoom ai req).body = ResponseBody.success d.data := by
  obtain ⟨pre, d, post, hsplit, hpre, hfind⟩ := find_first_image ps himg
  have he : extractImage r = Except.ok d.data := by
    simp [extractImage, hcs, hct, hps, hfind]
  have h := editRoom_of_response ai req r hf hai
  rw [he] at h
  simp only [Prod.mk.injEq] at h
  exact ⟨pre, d, post, hsplit, hpre, h.1, h.2⟩

/-- Witness for `first_image_returned`: the response has a part without `inlineData`,
then an image `IMG1`, then a second image `IMG2`; the answer is 200 with `IMG1`. -/
theorem first_image_returned_witness :
    ∃ pre d post,
      [({ inlineData := none } : RespPart), { inlineData := some { data := JsVal.str "IMG1" } },
          { inlineData := some { data := JsVal.str "IMG2" } }] =
        pre ++ { inlineData := some d } :: post ∧
      (∀ q ∈ pre, q.inlineData = none) ∧
      (editRoom
        (fun _ => ModelResult.resolves
          { candidates := some
              [{ content := some
                  { parts := some
                      [{ inlineData := none },
                        { inlineData := some { data := JsVal.str "IMG1" } },
                        { inlineData := some { data := JsVal.str "IMG2" } }] } }] })
        { floorImgBase64 := JsVal.str "data:image/jpeg;base64,AAAA"
          tileImgBase64 := JsVal.undefined
          sofaImgBase64 := JsVal.undefined
          bedImgBase64 := JsVal.undefined
          colorValue := JsVal.str "#10B981"
          targetObjects := JsVal.undefined
          sofaPlacement := JsVal.undefined }).status = 200 ∧
      (editRoom
        (fun _ => ModelResult.resolves
          { candidates := some
              [{ content := some
                  { parts := some
                      [{ inlineData := none },
                        { inlineData := some { data := JsVal.str "IMG1" } },
                        { inlineData := some { data := JsVal.str "IMG2" } }] } }] })
        { floorImgBase64 := JsVal.str "data:image/jpeg;base64,AAAA"
          tileImgBase64 := JsVal.undefined
          sofaImgBase64 := JsVal.undefined
          bedImgBase64 := JsVal.undefined
          colorValue := JsVal.str "#10B981"
          targetObjects := JsVal.undefined
          sofaPlacement := JsVal.undefined }).body = ResponseBody.success d.data :=
  first_image_returned _ _ _ _ [] _ _ (by decide) (fun _ _ => rfl) rfl rfl rfl
    ⟨{ inlineData := some { data := JsVal.str "IMG1" } }, by decide, rfl⟩

/-- The response of the witness evaluated: the image returned is `IMG1`. -/
theorem first_image_example :
    (editRoom
        (fun _ => ModelResult.resolves
          { candidates := some
              [{ content := some
                  { parts := some
                      [{ inlineData := none },
                        { inlineData := some { data := JsVal.str "IMG1" } },
                        { inlineData := some { data := JsVal.str "IMG2" } }] } }] })
        { floorImgBase64 := JsVal.str "data:image/jpeg;base64,AAAA"
          tileImgBase64 := JsVal.undefined
          sofaImgBase64 := JsVal.undefined
          bedImgBase64 := JsVal.undefined
          colorValue := JsVal.str "#10B981"
          targetObjects := JsVal.undefined
          sofaPlacement := JsVal.undefined }).body = ResponseBody.success (JsVal.str "IMG1") := by
  decide

/-! ## C13: the global constraints close the instruction -/

/-- C13.  For every input the instruction is the head, the floor clause, the wall clause,
the furniture clause (nothing without a sofa) and then, after all of them, the same four
lines in the same order: keep the architectural details, unchanged walls or floors are
identical to floor.jpg, the lighting on the sofa matches floor.jpg, only the final image
is provided.  These four lines are the end of the instruction, which is the first part
sent to the model. -/
theorem global_constraints_last (floor tile sofa bed color target pl : JsVal) :
    promptText tile color sofa pl =
      promptHead ++ (if tile.truthy = true then floorReplaceClause else floorKeepClause)
        ++ (if color.truthy = true then wallRepaintHead ++ color.toStr ++ wallRepaintTail
            else wallKeepClause)
        ++ (if sofa.truthy = true then furnitureHead ++ pl.toStr ++ furnitureTail else "")
        ++ ("\n" ++ "- Maintain all original architectural details (door, trim, switches, windows)."
          ++ "\n" ++ "- If no change is requested for walls or floors, they MUST be identical to floor.jpg."
          ++ "\n" ++ "- Lighting on the sofa must match the light source direction in floor.jpg."
          ++ "\n" ++ "- Provide ONLY the final image." ++ "\n") ∧
    ("\n" ++ "- Maintain all original architectural details (door, trim, switches, windows)."
        ++ "\n" ++ "- If no change is requested for walls or floors, they MUST be identical to floor.jpg."
        ++ "\n" ++ "- Lighting on the sofa must match the light source direction in floor.jpg."
        ++ "\n" ++ "- Provide ONLY the final image." ++ "\n").data <:+
      (promptText tile color sofa pl).data ∧
    (inputParts floor tile sofa bed color target pl).head? =
      some (Part.text (promptText tile color sofa pl)) := by
  have htail : promptTail =
      "\n" ++ "- Maintain all original architectural details (door, trim, switches, windows)."
        ++ "\n" ++ "- If no change is requested for walls or floors, they MUST be identical to floor.jpg."
        ++ "\n" ++ "- Lighting on the sofa must match the light source direction in floor.jpg."
        ++ "\n" ++ "- Provide ONLY the final image." ++ "\n" := by decide
  refine ⟨?_, ?_, ?_⟩
  · rw [← htail]
    exact promptText_eq tile color sofa pl
  · rw [← htail, promptText, String.data_append]
    exact List.suffix_append _ _
  · rw [inputParts_eq]
    rfl

/-! ## C14: what the model request depends on -/

theorem promptText_without_sofa (tile color sofa pl pl' : JsVal) (hs : sofa.truthy = false) :
    promptText tile color sofa pl = promptText tile color sofa pl' := by
  rw [promptText_eq, promptText_eq]
  simp [hs]

/-- C14.  The request `generateRoomEdit` sends (the instruction and the ordered parts) does
not depend on `targetObjects`, nor on how the model answers: two calls that differ only in
`targetObjects` send the same request.  Without a sofa reference it does not depend on
the placement text either.  The same holds for the handler: changing `targetObjects` in
a request, or the placement text in a request without a sofa, changes neither the model
call nor the answer. -/
theorem request_independent_of_unused_inputs (ai ai' : GenerateContentRequest → ModelResult)
    (floor tile sofa bed color target target' pl pl' : JsVal) (req : EditRoomBody) :
    inputParts floor tile sofa bed color target pl =
      inputParts floor tile sofa bed color target' pl ∧
    (generateRoomEdit ai floor tile sofa bed color target pl).calls =
      (generateRoomEdit ai' floor tile sofa bed color target' pl).calls ∧
    (sofa.truthy = false →
      promptText tile color sofa pl = promptText tile color sofa pl' ∧
      inputParts floor tile sofa bed color target pl =
        inputParts floor tile sofa bed color target' pl' ∧
      (generateRoomEdit ai floor tile sofa bed color target pl).calls =
        (generateRoomEdit ai' floor tile sofa bed color target' pl').calls) ∧
    editRoom ai { req with targetObjects := target' } = editRoom ai req ∧
    (req.sofaImgBase64.truthy = false →
      editRoom ai { req with sofaPlacement := pl' } = editRoom ai req) := by
  have hparts : ∀ p q : JsVal, sofa.truthy = false →
      inputParts floor tile sofa bed color target p =
        inputParts floor tile sofa bed color target' q := by
    intro p q hs
    rw [inputParts_eq, inputParts_eq, promptText_without_sofa tile color sofa p q hs]
  refine ⟨rfl, ?_, ?_, rfl, ?_⟩
  · rw [generateRoomEdit_calls, generateRoomEdit_calls]
    rfl
  · intro hs
    refine ⟨promptText_without_sofa _ _ _ _ _ hs, hparts pl pl' hs, ?_⟩
    rw [generateRoomEdit_calls, generateRoomEdit_calls, hparts pl pl' hs]
  · intro hs
    have hn : req.sofaImgBase64.orNull = JsVal.null := orNull_of_falsy _ hs
    have hp : inputParts req.floorImgBase64 req.tileImgBase64.orNull JsVal.null
        req.bedImgBase64.orNull req.colorValue.orNull req.targetObjects pl' =
        inputParts req.floorImgBase64 req.tileImgBase64.orNull JsVal.null
          req.bedImgBase64.orNull req.colorValue.orNull req.targetObjects req.sofaPlacement := by
      rw [inputParts_eq, inputParts_eq,
        promptText_without_sofa _ _ JsVal.null pl' req.sofaPlacement rfl]
    unfold editRoom generateRoomEdit
    simp only [hn, hp]

/-- Witness for `request_independent_of_unused_inputs`: no sofa, two different
placement texts, two different values of `targetObjects`, two different models. -/
theorem request_independent_of_unused_inputs_witness :
    (generateRoomEdit (fun _ => ModelResult.rejects "quota") (JsVal.str "F") (JsVal.str "T")
        JsVal.null JsVal.null (JsVal.str "#10B981") (JsVal.str "both")
        (JsVal.str "centered in the room")).calls =
      (generateRoomEdit (fun _ => ModelResult.resolves { candidates := none }) (JsVal.str "F")
        (JsVal.str "T") JsVal.null JsVal.null (JsVal.str "#10B981") JsVal.undefined
        (JsVal.str "at coordinates X: 1, Y: 2.")).calls :=
  ((request_independent_of_unused_inputs (fun _ => ModelResult.rejects "quota")
      (fun _ => ModelResult.resolves { candidates := none }) (JsVal.str "F") (JsVal.str "T")
      JsVal.null JsVal.null (JsVal.str "#10B981") (JsVal.str "both") JsVal.undefined
      (JsVal.str "centered in the room") (JsVal.str "at coordinates X: 1, Y: 2.")
      { floorImgBase64 := JsVal.str "F"
        tileImgBase64 := JsVal.undefined
        sofaImgBase64 := JsVal.undefined
        bedImgBase64 := JsVal.undefined
        colorValue := JsVal.undefined
        targetObjects := JsVal.undefined
        sofaPlacement := JsVal.undefined }).2.2.1 (by decide)).2.2

end RoomVisualizer
